import Mathlib

/-!
Shallow embedding of the reminder validity/scheduling core of the `raas`
event-reminder application.

Sources embedded:
  - the reminder server actions (`createReminder`, `updateReminder`,
    `createOrUpdateReminder`, `deleteReminder`) from `src/middleware.ts`
    (the file also carries the type declarations and the zod schemas);
  - the event update action with its reminder propagation block
    (`updateEvent`) from `src/actions/auth-actions.ts`;
  - the in-memory `MockReminderService` job scheduler from
    `src/lib/reminder-job.ts` (`scheduleReminder`, `cancelReminder`,
    `updateReminder`, `processReminders` with its success / failure
    `setTimeout` callbacks).

Instants (`Date`) are embedded as `Int` milliseconds (`getTime()` values);
database ids are opaque strings; the prisma tables and the scheduler's
`Map` are association lists keyed by id.
-/

/-- Event lifecycle status, from the prisma `EventStatus` enum. -/
inductive EventStatus where
  | DRAFT
  | PUBLISHED
  | CANCELED
deriving DecidableEq

/-- A persisted event row (fields relevant to the reminder core),
from the `Event` interface in `src/middleware.ts`. -/
structure Event where
  id : String
  title : String
  description : Option String
  date : Int
  location : String
  status : EventStatus
  userId : String
deriving DecidableEq

/-- A persisted reminder row, from the `Reminder` interface. -/
structure Reminder where
  id : String
  reminderTime : Int
  eventId : String
  userId : String
deriving DecidableEq

/-- Scheduler job status, from `ReminderJob.status` in
`src/lib/reminder-job.ts`. -/
inductive JobStatus where
  | pending
  | sent
  | failed
deriving DecidableEq

/-- An in-memory scheduler job, from the `ReminderJob` interface in
`src/lib/reminder-job.ts`. -/
structure ReminderJob where
  id : String
  eventId : String
  userId : String
  eventTitle : String
  eventDate : Int
  reminderTime : Int
  status : JobStatus
deriving DecidableEq

/-- The durable store: the prisma `event` and `reminder` tables. -/
structure DB where
  events : List Event
  reminders : List Reminder
deriving DecidableEq

/-- Full application state: the durable store plus the scheduler's
in-memory job `Map` (keyed by job id, insertion ordered). -/
structure AppState where
  db : DB
  jobs : List ReminderJob
deriving DecidableEq

/-- `15 * 60 * 1000`, the `fifteenMinutes` constant of the actions. -/
def fifteenMinutes : Int := 15 * 60 * 1000

/-- `7 * 24 * 60 * 60 * 1000`, the `sevenDays` constant of the actions. -/
def sevenDays : Int := 7 * 24 * 60 * 60 * 1000

/-- The rejection test of `createReminder` / `updateReminder` /
`createOrUpdateReminder`:
`timeBeforeEvent < fifteenMinutes || timeBeforeEvent > sevenDays`
where `timeBeforeEvent = event.date.getTime() - reminderTime.getTime()`. -/
def windowRejects (eventDate reminderTime : Int) : Bool :=
  decide (eventDate - reminderTime < fifteenMinutes) ||
    decide (eventDate - reminderTime > sevenDays)

/-- The acceptance test of the propagation block inside `updateEvent`:
`timeBeforeEvent >= fifteenMinutes && timeBeforeEvent <= sevenDays`. -/
def propagationWindowOk (eventDate reminderTime : Int) : Bool :=
  decide (eventDate - reminderTime ≥ fifteenMinutes) &&
    decide (eventDate - reminderTime ≤ sevenDays)

/-- `this.jobs.get(id)` on the scheduler's `Map`. -/
def jobsGet (jobs : List ReminderJob) (id : String) : Option ReminderJob :=
  jobs.find? (fun j => j.id == id)

/-- `this.jobs.set(job.id, job)`: overwrite the entry with that id in
place, or append a new entry (JS `Map` insertion-order semantics). -/
def jobsSet (jobs : List ReminderJob) (job : ReminderJob) : List ReminderJob :=
  if jobs.any (fun j => j.id == job.id) then
    jobs.map (fun j => if j.id == job.id then job else j)
  else
    jobs ++ [job]

/-- `this.jobs.delete(id)`. -/
def jobsDelete (jobs : List ReminderJob) (id : String) : List ReminderJob :=
  jobs.filter (fun j => j.id != id)

/-- `MockReminderService.scheduleReminder`: insert a fresh pending job. -/
def scheduleReminder (jobs : List ReminderJob) (reminderId eventId userId eventTitle : String)
    (eventDate reminderTime : Int) : List ReminderJob :=
  jobsSet jobs
    { id := reminderId, eventId := eventId, userId := userId, eventTitle := eventTitle,
      eventDate := eventDate, reminderTime := reminderTime, status := JobStatus.pending }

/-- `MockReminderService.cancelReminder`: delete the job if present. -/
def cancelReminder (jobs : List ReminderJob) (reminderId : String) : List ReminderJob :=
  if jobs.any (fun j => j.id == reminderId) then jobsDelete jobs reminderId else jobs

/-- `MockReminderService.updateReminder`: if the job exists, set its
`reminderTime` to the new time and reset its status to `pending`. -/
def schedUpdateReminder (jobs : List ReminderJob) (reminderId : String)
    (newReminderTime : Int) : List ReminderJob :=
  jobs.map (fun j =>
    if j.id == reminderId then
      { j with reminderTime := newReminderTime, status := JobStatus.pending }
    else j)

/-- The input of the reminder actions (`ReminderFormInput`). -/
structure ReminderFormInput where
  reminderTime : Int
  eventId : String
deriving DecidableEq

/-- The `reminderSchema` zod check on a typed `ReminderFormInput`:
`eventId: z.string().min(1)`; `reminderTime: z.coerce.date()` always
succeeds on a `Date`, and the `refine` always returns `true`. -/
def reminderSchemaOk (data : ReminderFormInput) : Bool :=
  decide (1 ≤ data.eventId.length)

/-- `prisma.event.findFirst({ where: { id, userId } })`. -/
def findEventForOwner (events : List Event) (eventId userId : String) : Option Event :=
  events.find? (fun e => e.id == eventId && e.userId == userId)

/-- `prisma.reminder.findFirst({ where: { eventId, userId } })`. -/
def findReminderForEventOwner (reminders : List Reminder) (eventId userId : String) :
    Option Reminder :=
  reminders.find? (fun r => r.eventId == eventId && r.userId == userId)

/-- `prisma.reminder.findFirst({ where: { id, userId } })`. -/
def findReminderForIdOwner (reminders : List Reminder) (reminderId userId : String) :
    Option Reminder :=
  reminders.find? (fun r => r.id == reminderId && r.userId == userId)

/-- `prisma.reminder.update({ where: { id }, data: { reminderTime } })`. -/
def dbUpdateReminderTime (reminders : List Reminder) (reminderId : String)
    (newTime : Int) : List Reminder :=
  reminders.map (fun r =>
    if r.id == reminderId then { r with reminderTime := newTime } else r)

/-- `prisma.reminder.delete({ where: { id } })`. -/
def dbDeleteReminder (reminders : List Reminder) (reminderId : String) : List Reminder :=
  reminders.filter (fun r => r.id != reminderId)

def notAuthenticatedMsg : String := "Session expired, please log in again."

def eventIdRequiredMsg : String := "Event ID: Event ID is required"

def eventNotFoundCreateMsg : String :=
  "Event not found or you do not have permission to add a reminder."

def eventNotFoundUpdateMsg : String :=
  "Event not found or you do not have permission to update this reminder."

def invalidWindowMsg : String :=
  "Reminder must be between 15 minutes and 7 days before the event."

def duplicateReminderMsg : String := "A reminder already exists for this event."

def reminderNotFoundUpdateMsg : String :=
  "Reminder not found or you do not have permission to update it."

def reminderNotFoundDeleteMsg : String :=
  "Reminder not found or you do not have permission to delete it."

/-- The `createReminder` server action (`src/middleware.ts`).
`session` is the result of `auth()` (the caller's user id when present);
`newId` is the id prisma mints for the created row. -/
def createReminder (st : AppState) (session : Option String)
    (data : ReminderFormInput) (newId : String) : Except String Reminder × AppState :=
  match session with
  | none => (Except.error notAuthenticatedMsg, st)
  | some userId =>
    if reminderSchemaOk data = false then
      (Except.error eventIdRequiredMsg, st)
    else
      match findEventForOwner st.db.events data.eventId userId with
      | none => (Except.error eventNotFoundCreateMsg, st)
      | some event =>
        if windowRejects event.date data.reminderTime then
          (Except.error invalidWindowMsg, st)
        else
          match findReminderForEventOwner st.db.reminders data.eventId userId with
          | some _ => (Except.error duplicateReminderMsg, st)
          | none =>
            let reminder : Reminder :=
              { id := newId, reminderTime := data.reminderTime,
                eventId := data.eventId, userId := userId }
            let jobs := scheduleReminder st.jobs reminder.id event.id userId
              event.title event.date data.reminderTime
            (Except.ok reminder,
              { db := { st.db with reminders := st.db.reminders ++ [reminder] },
                jobs := jobs })

/-- The `updateReminder` server action (`src/middleware.ts`): note that the
event lookup and window check use `data.eventId`, while the reminder lookup
uses `reminderId` only — the stored reminder's own `eventId` is never
consulted. -/
def updateReminder (st : AppState) (session : Option String) (reminderId : String)
    (data : ReminderFormInput) : Except String Reminder × AppState :=
  match session with
  | none => (Except.error notAuthenticatedMsg, st)
  | some userId =>
    if reminderSchemaOk data = false then
      (Except.error eventIdRequiredMsg, st)
    else
      match findEventForOwner st.db.events data.eventId userId with
      | none => (Except.error eventNotFoundUpdateMsg, st)
      | some event =>
        if windowRejects event.date data.reminderTime then
          (Except.error invalidWindowMsg, st)
        else
          match findReminderForIdOwner st.db.reminders reminderId userId with
          | none => (Except.error reminderNotFoundUpdateMsg, st)
          | some existing =>
            let reminders := dbUpdateReminderTime st.db.reminders reminderId data.reminderTime
            let jobs := schedUpdateReminder st.jobs reminderId data.reminderTime
            (Except.ok { existing with reminderTime := data.reminderTime },
              { db := { st.db with reminders := reminders }, jobs := jobs })

/-- The legacy `createOrUpdateReminder` server action (`src/middleware.ts`):
upserts the reminder row but performs no `reminderService` call at all. -/
def createOrUpdateReminder (st : AppState) (session : Option String)
    (data : ReminderFormInput) (newId : String) : Except String Reminder × AppState :=
  match session with
  | none => (Except.error notAuthenticatedMsg, st)
  | some userId =>
    if reminderSchemaOk data = false then
      (Except.error eventIdRequiredMsg, st)
    else
      match findEventForOwner st.db.events data.eventId userId with
      | none => (Except.error eventNotFoundCreateMsg, st)
      | some _event =>
        if windowRejects _event.date data.reminderTime then
          (Except.error invalidWindowMsg, st)
        else
          match findReminderForEventOwner st.db.reminders data.eventId userId with
          | some existing =>
            let reminders := dbUpdateReminderTime st.db.reminders existing.id data.reminderTime
            (Except.ok { existing with reminderTime := data.reminderTime },
              { st with db := { st.db with reminders := reminders } })
          | none =>
            let reminder : Reminder :=
              { id := newId, reminderTime := data.reminderTime,
                eventId := data.eventId, userId := userId }
            (Except.ok reminder,
              { st with db := { st.db with reminders := st.db.reminders ++ [reminder] } })

/-- The `deleteReminder` server action (`src/middleware.ts`). -/
def deleteReminder (st : AppState) (session : Option String)
    (reminderId : String) : Except String Unit × AppState :=
  match session with
  | none => (Except.error notAuthenticatedMsg, st)
  | some userId =>
    match findReminderForIdOwner st.db.reminders reminderId userId with
    | none => (Except.error reminderNotFoundDeleteMsg, st)
    | some _ =>
      let reminders := dbDeleteReminder st.db.reminders reminderId
      let jobs := cancelReminder st.jobs reminderId
      (Except.ok (), { db := { st.db with reminders := reminders }, jobs := jobs })

/-- The input of the event actions (`EventFormInput`), with typed fields
as produced by the form parsing in `updateEvent`. -/
structure EventFormInput where
  title : String
  description : Option String
  date : Int
  location : String
  status : EventStatus
deriving DecidableEq

/-- One character of the `[A-Za-z]` class in the location regex. -/
def isAsciiLetter (c : Char) : Bool :=
  (decide ('A' ≤ c) && decide (c ≤ 'Z')) || (decide ('a' ≤ c) && decide (c ≤ 'z'))

/-- The zod location refine `/^[A-Za-z]{2}-[A-Za-z]{2,3}:/.test(location)`:
two letters, a dash, two or three letters, then a colon. -/
def locationCodeOk (s : String) : Bool :=
  match s.toList with
  | c1 :: c2 :: '-' :: rest =>
    isAsciiLetter c1 && isAsciiLetter c2 &&
      (match rest with
       | a :: b :: ':' :: _ => isAsciiLetter a && isAsciiLetter b
       | a :: b :: c :: ':' :: _ => isAsciiLetter a && isAsciiLetter b && isAsciiLetter c
       | _ => false)
  | _ => false

/-- The `z.string().max(500).optional().nullable()` description bound. -/
def descriptionTooLong (d : Option String) : Bool :=
  match d with
  | some s => decide (500 < s.length)
  | none => false

/-- The `eventSchema` zod check on a typed `EventFormInput`, returning the
first field error message the action would surface (`now` embeds the
`new Date()` used by the future-date refine), or `none` when valid. -/
def eventSchemaError (now : Int) (d : EventFormInput) : Option String :=
  if d.title.length < 1 then some "Title: Title is required"
  else if 100 < d.title.length then some "Title: Title must be less than 100 characters"
  else if descriptionTooLong d.description then
    some "Description: Description must be less than 500 characters"
  else if d.date ≤ now then some "Date: Date must be in the future"
  else if d.location.length < 1 then some "Location: Location is required"
  else if locationCodeOk d.location = false then
    some "Location: Location must include country code prefix (e.g., \x22US-NY: New York\x22)"
  else none

/-- One iteration of the propagation loop in `updateEvent`, applied across
the reminder table: a reminder of the updated event is kept with
`newReminderTime = newDate - (priorDate - reminderTime)` when
`newDate - newReminderTime` is inside the window, deleted otherwise;
reminders of other events are untouched. -/
def propagateReminders (priorDate newDate : Int) (eventId : String)
    (reminders : List Reminder) : List Reminder :=
  reminders.filterMap (fun r =>
    if r.eventId == eventId then
      let timeDiff := priorDate - r.reminderTime
      let newReminderTime := newDate - timeDiff
      if propagationWindowOk newDate newReminderTime then
        some { r with reminderTime := newReminderTime }
      else none
    else some r)

/-- The `updateEvent` server action (`src/actions/auth-actions.ts`),
including its reminder propagation block. The scheduler's job table is
carried through untouched, exactly as in the source (the block performs
no `reminderService` call). -/
def updateEvent (st : AppState) (session : Option String) (now : Int)
    (eventId : String) (d : EventFormInput) : Except String Event × AppState :=
  match session with
  | none => (Except.error notAuthenticatedMsg, st)
  | some userId =>
    match eventSchemaError now d with
    | some msg => (Except.error msg, st)
    | none =>
      match findEventForOwner st.db.events eventId userId with
      | none =>
        (Except.error "Event not found or you do not have permission to edit it.", st)
      | some existingEvent =>
        if st.db.events.any (fun e =>
            e.title == d.title && e.date == d.date && e.userId == userId &&
              e.id != eventId) then
          (Except.error "Event with this title and date already exists.", st)
        else
          let updatedEvent : Event :=
            { existingEvent with
              title := d.title
              description := d.description
              date := d.date
              location := d.location
              status := d.status }
          let events := st.db.events.map (fun e =>
            if e.id == eventId then updatedEvent else e)
          let eventReminders := st.db.reminders.filter (fun r => r.eventId == eventId)
          let reminders :=
            if decide (existingEvent.date ≠ d.date) && decide (0 < eventReminders.length) then
              propagateReminders existingEvent.date d.date eventId st.db.reminders
            else st.db.reminders
          (Except.ok updatedEvent,
            { db := { events := events, reminders := reminders }, jobs := st.jobs })

/-- A callback registered by `setTimeout` inside `processReminders`:
either the post-success removal of the table entry after the retention
window, or the post-failure transition back to pending after the fixed
retry delay. `fireTime` is the instant it was scheduled to run. -/
inductive Timer where
  | removal (id : String) (fireTime : Int)
  | retry (id : String) (fireTime : Int)
deriving DecidableEq

/-- The state threaded through the `for` loop of `processReminders`. -/
structure ScanResult where
  jobs : List ReminderJob
  attempted : List String
  timers : List Timer
deriving DecidableEq

/-- `60 * 60 * 1000`, the sent-job retention window of `processReminders`. -/
def oneHour : Int := 60 * 60 * 1000

/-- `5 * 60 * 1000`, the fixed retry delay of `processReminders`. -/
def fiveMinutes : Int := 5 * 60 * 1000

/-- The body of the `for (const job of pendingJobs)` loop of
`processReminders`: attempt delivery of `job` (outcome given by `send`);
on success mark it sent and schedule its removal one hour out; on a caught
failure mark it failed and schedule its retry transition five minutes out. -/
def processOneJob (send : ReminderJob → Bool) (now : Int) (acc : ScanResult)
    (job : ReminderJob) : ScanResult :=
  if send job then
    { jobs := acc.jobs.map (fun j =>
        if j.id == job.id then { j with status := JobStatus.sent } else j),
      attempted := acc.attempted ++ [job.id],
      timers := acc.timers ++ [Timer.removal job.id (now + oneHour)] }
  else
    { jobs := acc.jobs.map (fun j =>
        if j.id == job.id then { j with status := JobStatus.failed } else j),
      attempted := acc.attempted ++ [job.id],
      timers := acc.timers ++ [Timer.retry job.id (now + fiveMinutes)] }

/-- `MockReminderService.processReminders`: snapshot `now`, select the jobs
with `status === 'pending' && reminderTime <= now`, and process each in
order with per-job try/catch. Returns the updated job table, the ids whose
delivery was attempted, and the `setTimeout` callbacks registered. -/
def processReminders (jobs : List ReminderJob) (now : Int)
    (send : ReminderJob → Bool) : ScanResult :=
  let pendingJobs := jobs.filter (fun j =>
    j.status == JobStatus.pending && decide (j.reminderTime ≤ now))
  pendingJobs.foldl (processOneJob send now)
    { jobs := jobs, attempted := [], timers := [] }

/-- Running one registered `setTimeout` callback at actual time `now`.
The removal callback runs `this.jobs.delete(job.id)` unconditionally; the
retry callback checks `this.jobs.has(job.id)` and, when present, resets
the entry to pending with `reminderTime = addMinutes(new Date(), 5)`. -/
def fireTimer (jobs : List ReminderJob) (tm : Timer) (now : Int) : List ReminderJob :=
  match tm with
  | Timer.removal id _ => jobsDelete jobs id
  | Timer.retry id _ =>
    if jobs.any (fun j => j.id == id) then
      jobs.map (fun j =>
        if j.id == id then
          { j with status := JobStatus.pending, reminderTime := now + fiveMinutes }
        else j)
    else jobs

/-- Iterated failure rounds for a single job under an always-failing
delivery: round `n + 1` scans at `t0 + 10min * n` (where the job is due),
then fires the scheduled retry callback five minutes later. -/
def scanFireIter (j0 : ReminderJob) (t0 : Int) : Nat → ReminderJob
  | 0 => j0
  | n + 1 =>
    let j := scanFireIter j0 t0 n
    let t := t0 + (2 * fiveMinutes) * (n : Int)
    ((fireTimer (processReminders [j] t (fun _ => false)).jobs
        (Timer.retry j.id (t + fiveMinutes)) (t + fiveMinutes)).headD j)

/-! ### Concrete sample data used by the witnesses and counterexamples -/

def cEvent3 : Event :=
  { id := "e1", title := "A", description := none, date := 2000000,
    location := "US-NY: x", status := EventStatus.PUBLISHED, userId := "u1" }

def cRem3 : Reminder :=
  { id := "r1", reminderTime := 1000000, eventId := "e1", userId := "u1" }

def cJob3 : ReminderJob :=
  { id := "r1", eventId := "e1", userId := "u1", eventTitle := "A",
    eventDate := 2000000, reminderTime := 1000000, status := JobStatus.pending }

def st3 : AppState :=
  { db := { events := [cEvent3], reminders := [cRem3] }, jobs := [cJob3] }

def d3 : EventFormInput :=
  { title := "A", description := none, date := 7000000,
    location := "US-NY: x", status := EventStatus.PUBLISHED }

def st0 : AppState :=
  { db := { events := [cEvent3], reminders := [] }, jobs := [] }

def cData : ReminderFormInput := { reminderTime := 1000000, eventId := "e1" }

def cRemOther : Reminder :=
  { id := "r9", reminderTime := 1500000, eventId := "e2", userId := "u1" }

def stC8 : AppState :=
  { db := { events := [cEvent3], reminders := [cRemOther] }, jobs := [] }

def dataU : ReminderFormInput := { reminderTime := 1050000, eventId := "e1" }

def stU : AppState :=
  { db := { events := [cEvent3], reminders := [{ cRem3 with reminderTime := 1050000 }] },
    jobs := [{ cJob3 with reminderTime := 1050000, status := JobStatus.pending }] }


/-- C1: the time-window check applied by `createReminder`, `updateReminder`
and event-change propagation accepts a pair `(eventDate, reminderTime)`
iff `900000 ≤ eventDate - reminderTime ≤ 604800000`, both boundaries
inclusive. -/
theorem C1_window_check_iff (eventDate reminderTime : Int) :
    (windowRejects eventDate reminderTime = false ↔
      (900000 ≤ eventDate - reminderTime ∧ eventDate - reminderTime ≤ 604800000)) ∧
    (propagationWindowOk eventDate reminderTime = true ↔
      (900000 ≤ eventDate - reminderTime ∧ eventDate - reminderTime ≤ 604800000)) := by
  constructor
  · simp only [windowRejects, fifteenMinutes, sevenDays, Bool.or_eq_false_iff,
      decide_eq_false_iff_not, not_lt, not_le]
    omega
  · simp only [propagationWindowOk, fifteenMinutes, sevenDays, Bool.and_eq_true,
      decide_eq_true_eq, ge_iff_le]
    omega

/-! ### Helper lemmas -/

theorem processOneJob_attempted (send : ReminderJob → Bool) (now : Int)
    (acc : ScanResult) (job : ReminderJob) :
    (processOneJob send now acc job).attempted = acc.attempted ++ [job.id] := by
  unfold processOneJob
  split <;> rfl

theorem foldl_processOneJob_attempted (send : ReminderJob → Bool) (now : Int)
    (l : List ReminderJob) (acc : ScanResult) :
    (l.foldl (processOneJob send now) acc).attempted =
      acc.attempted ++ l.map (fun j => j.id) := by
  induction l generalizing acc with
  | nil => simp
  | cons a l ih => simp [List.foldl_cons, ih, processOneJob_attempted]

theorem any_jobsDelete (jobs : List ReminderJob) (id : String) :
    (jobsDelete jobs id).any (fun j => j.id == id) = false := by
  rw [List.any_eq_false]
  intro x hx
  rw [jobsDelete, List.mem_filter] at hx
  simpa using hx.2

theorem any_cancelReminder (jobs : List ReminderJob) (id : String) :
    (cancelReminder jobs id).any (fun j => j.id == id) = false := by
  unfold cancelReminder
  cases h : jobs.any (fun j => j.id == id) with
  | false => simp [h]
  | true => simp [any_jobsDelete]

theorem processReminders_single_fail (j : ReminderJob) (t : Int)
    (hp : j.status = JobStatus.pending) (hd : j.reminderTime ≤ t) :
    processReminders [j] t (fun _ => false) =
      { jobs := [{ j with status := JobStatus.failed }]
        attempted := [j.id]
        timers := [Timer.retry j.id (t + fiveMinutes)] } := by
  simp [processReminders, List.filter, hp, hd, processOneJob]

theorem processReminders_single_success (j : ReminderJob) (t : Int)
    (send : ReminderJob → Bool)
    (hp : j.status = JobStatus.pending) (hd : j.reminderTime ≤ t)
    (hs : send j = true) :
    processReminders [j] t send =
      { jobs := [{ j with status := JobStatus.sent }]
        attempted := [j.id]
        timers := [Timer.removal j.id (t + oneHour)] } := by
  simp [processReminders, List.filter, hp, hd, processOneJob, hs]

theorem scanFire_cycle (j : ReminderJob) (t : Int)
    (hp : j.status = JobStatus.pending) (hd : j.reminderTime ≤ t) :
    (fireTimer (processReminders [j] t (fun _ => false)).jobs
        (Timer.retry j.id (t + fiveMinutes)) (t + fiveMinutes)).headD j =
      { j with
        status := JobStatus.pending
        reminderTime := t + fiveMinutes + fiveMinutes } := by
  rw [processReminders_single_fail j t hp hd]
  simp [fireTimer]

/-! ### Claim theorems for the scheduler (C5, C6, C7, C10) -/

/-- C5: a scan at time `now` attempts delivery exactly for the jobs with
status `pending` and `reminderTime ≤ now` (in table order), and the set of
attempted jobs does not depend on the delivery outcomes: one due job's
failure never suppresses the delivery attempt of another due job in the
same scan. -/
theorem C5_scan_exactly_due_jobs (jobs : List ReminderJob) (now : Int)
    (send send' : ReminderJob → Bool) :
    (processReminders jobs now send).attempted =
      (jobs.filter (fun j =>
        j.status == JobStatus.pending && decide (j.reminderTime ≤ now))).map
        (fun j => j.id) ∧
    (processReminders jobs now send).attempted =
      (processReminders jobs now send').attempted := by
  constructor
  · simp [processReminders, foldl_processOneJob_attempted]
  · simp [processReminders, foldl_processOneJob_attempted]

/-- C6: when delivery of a due job fails, the scan sets its status to
`failed` and schedules a retry callback `fiveMinutes` later; when that
callback runs at time `t` it resets the job to `pending` with
`reminderTime = t + fiveMinutes`; and under an always-failing delivery
this fixed-delay cycle repeats for every `n` with no attempt cap, the job
always returning to `pending`. -/
theorem C6_failed_retry_indefinitely (j : ReminderJob) (t0 : Int)
    (hp : j.status = JobStatus.pending) (hd : j.reminderTime ≤ t0) :
    (processReminders [j] t0 (fun _ => false) =
      { jobs := [{ j with status := JobStatus.failed }]
        attempted := [j.id]
        timers := [Timer.retry j.id (t0 + fiveMinutes)] }) ∧
    (∀ t, fireTimer [{ j with status := JobStatus.failed }]
        (Timer.retry j.id (t0 + fiveMinutes)) t =
      [{ j with status := JobStatus.pending, reminderTime := t + fiveMinutes }]) ∧
    (∀ n : Nat, scanFireIter j t0 (n + 1) =
      { j with
        status := JobStatus.pending
        reminderTime := t0 + (2 * fiveMinutes) * (n : Int) + 2 * fiveMinutes }) := by
  refine ⟨processReminders_single_fail j t0 hp hd, ?_, ?_⟩
  · intro t
    simp [fireTimer]
  · intro n
    induction n with
    | zero =>
      show (fireTimer (processReminders [scanFireIter j t0 0]
          (t0 + (2 * fiveMinutes) * ((0 : Nat) : Int)) (fun _ => false)).jobs
          (Timer.retry (scanFireIter j t0 0).id
            (t0 + (2 * fiveMinutes) * ((0 : Nat) : Int) + fiveMinutes))
          (t0 + (2 * fiveMinutes) * ((0 : Nat) : Int) + fiveMinutes)).headD
          (scanFireIter j t0 0) = _
      rw [show ((0 : Nat) : Int) = 0 by norm_num]
      rw [show t0 + 2 * fiveMinutes * 0 = t0 by ring]
      rw [show (scanFireIter j t0 0) = j from rfl]
      rw [scanFire_cycle j t0 hp hd]
      congr 1
      ring
    | succ n ih =>
      show (fireTimer (processReminders [scanFireIter j t0 (n + 1)]
          (t0 + (2 * fiveMinutes) * ((n + 1 : Nat) : Int)) (fun _ => false)).jobs
          (Timer.retry (scanFireIter j t0 (n + 1)).id
            (t0 + (2 * fiveMinutes) * ((n + 1 : Nat) : Int) + fiveMinutes))
          (t0 + (2 * fiveMinutes) * ((n + 1 : Nat) : Int) + fiveMinutes)).headD
          (scanFireIter j t0 (n + 1)) = _
      rw [ih]
      rw [scanFire_cycle _ _ rfl (by push_cast; simp [fiveMinutes]; omega)]
      have harith : t0 + (2 * fiveMinutes) * ((n + 1 : Nat) : Int) + fiveMinutes + fiveMinutes
          = t0 + 2 * fiveMinutes * ((n : Int) + 1) + 2 * fiveMinutes := by
        push_cast
        ring
      rw [harith]
      push_cast
      ring_nf

/-- C7: once `cancelReminder` has removed a job from the table, the
scheduled failed-to-pending retry callback for that id has no effect —
the table still contains no entry with that id, so the job cannot
reappear after cancellation. -/
theorem C7_cancel_prevents_retry_resurrection (jobs : List ReminderJob)
    (id : String) (ft t : Int) :
    fireTimer (cancelReminder jobs id) (Timer.retry id ft) t =
      cancelReminder jobs id ∧
    (cancelReminder jobs id).any (fun j => j.id == id) = false := by
  refine ⟨?_, any_cancelReminder jobs id⟩
  simp [fireTimer, any_cancelReminder]

/-- C10: when delivery of a due job succeeds, the scan marks it `sent` and
schedules a removal callback exactly `oneHour` later; that callback runs
`jobs.delete(id)` unconditionally on whatever entry then exists; in
particular if the scheduler's `updateReminder` has meanwhile reset the job
to `pending` with a new reminderTime, the removal still deletes it. -/
theorem C10_removal_deletes_unconditionally (j : ReminderJob) (now : Int)
    (send : ReminderJob → Bool)
    (hp : j.status = JobStatus.pending) (hd : j.reminderTime ≤ now)
    (hs : send j = true) :
    (processReminders [j] now send =
      { jobs := [{ j with status := JobStatus.sent }]
        attempted := [j.id]
        timers := [Timer.removal j.id (now + oneHour)] }) ∧
    (∀ jobs ft t, fireTimer jobs (Timer.removal j.id ft) t = jobsDelete jobs j.id) ∧
    (∀ newTime ft t,
      fireTimer (schedUpdateReminder [{ j with status := JobStatus.sent }] j.id newTime)
        (Timer.removal j.id ft) t = ([] : List ReminderJob)) := by
  refine ⟨processReminders_single_success j now send hp hd hs, ?_, ?_⟩
  · intro jobs ft t
    rfl
  · intro newTime ft t
    simp [schedUpdateReminder, fireTimer, jobsDelete]

/-- Witness for C6 at a concrete job: two failed scan/retry rounds
starting at time 1000000 leave the job pending with its reminderTime
advanced to 2200000, with no cap stopping the second round. -/
theorem C6_failed_retry_indefinitely_witness :
    cJob3.status = JobStatus.pending ∧ cJob3.reminderTime ≤ (1000000 : Int) ∧
    scanFireIter cJob3 1000000 2 =
      { cJob3 with status := JobStatus.pending, reminderTime := 2200000 } := by
  refine ⟨rfl, by decide, ?_⟩
  have h := (C6_failed_retry_indefinitely cJob3 1000000 rfl (by decide)).2.2 1
  norm_num [fiveMinutes] at h
  exact h

/-- Witness for C10 at a concrete job: a successful delivery schedules the
one-hour removal, and after the scheduler's `updateReminder` resets the
job to pending with a new time, firing the removal empties the table. -/
theorem C10_removal_deletes_unconditionally_witness :
    processReminders [cJob3] 1000000 (fun _ => true) =
      { jobs := [{ cJob3 with status := JobStatus.sent }]
        attempted := ["r1"]
        timers := [Timer.removal "r1" 4600000] } ∧
    fireTimer (schedUpdateReminder [{ cJob3 with status := JobStatus.sent }] "r1" 9999999)
      (Timer.removal "r1" 4600000) 4600000 = ([] : List ReminderJob) := by
  have h := C10_removal_deletes_unconditionally cJob3 1000000 (fun _ => true)
    rfl (by decide) rfl
  refine ⟨?_, ?_⟩
  · rw [h.1]
    decide
  · exact h.2.2 9999999 4600000 4600000

theorem findReminder_append_new (l : List Reminder) (eid uid : String)
    (h : findReminderForEventOwner l eid uid = none) (r : Reminder)
    (hr : r.eventId = eid) (hu : r.userId = uid) :
    findReminderForEventOwner (l ++ [r]) eid uid = some r := by
  unfold findReminderForEventOwner at h ⊢
  rw [List.find?_append, h]
  simp [List.find?, hr, hu]

/-- C4: `createReminder` checks NotAuthenticated, then EventNotFound, then
InvalidWindow, then DuplicateReminder, in that order, returning the
corresponding error with the state unchanged; only when all checks pass
does it persist the reminder, register a pending job, and return the
record — and a second create for the same `(eventId, ownerId)` with the
same data then fails with DuplicateReminder. -/
theorem C4_create_check_order (st : AppState) (uid : String)
    (data : ReminderFormInput) (newId newId2 : String)
    (hvalid : reminderSchemaOk data = true) :
    (createReminder st none data newId = (Except.error notAuthenticatedMsg, st)) ∧
    (findEventForOwner st.db.events data.eventId uid = none →
      createReminder st (some uid) data newId =
        (Except.error eventNotFoundCreateMsg, st)) ∧
    (∀ event, findEventForOwner st.db.events data.eventId uid = some event →
      windowRejects event.date data.reminderTime = true →
      createReminder st (some uid) data newId = (Except.error invalidWindowMsg, st)) ∧
    (∀ event existing, findEventForOwner st.db.events data.eventId uid = some event →
      windowRejects event.date data.reminderTime = false →
      findReminderForEventOwner st.db.reminders data.eventId uid = some existing →
      createReminder st (some uid) data newId =
        (Except.error duplicateReminderMsg, st)) ∧
    (∀ event, findEventForOwner st.db.events data.eventId uid = some event →
      windowRejects event.date data.reminderTime = false →
      findReminderForEventOwner st.db.reminders data.eventId uid = none →
      (createReminder st (some uid) data newId).1 =
        Except.ok { id := newId, reminderTime := data.reminderTime, eventId := data.eventId, userId := uid } ∧
      (createReminder st (some uid) data newId).2.db.events = st.db.events ∧
      (createReminder st (some uid) data newId).2.db.reminders =
        st.db.reminders ++ [{ id := newId, reminderTime := data.reminderTime, eventId := data.eventId, userId := uid }] ∧
      (createReminder st (some uid) data newId).2.jobs =
        scheduleReminder st.jobs newId event.id uid event.title event.date data.reminderTime ∧
      createReminder (createReminder st (some uid) data newId).2 (some uid) data newId2 =
        (Except.error duplicateReminderMsg, (createReminder st (some uid) data newId).2)) := by
  refine ⟨rfl, ?_, ?_, ?_, ?_⟩
  · intro hfind
    simp [createReminder, hvalid, hfind]
  · intro event hfind hwin
    simp [createReminder, hvalid, hfind, hwin]
  · intro event existing hfind hwin hdup
    simp [createReminder, hvalid, hfind, hwin, hdup]
  · intro event hfind hwin hnone
    have hmain : createReminder st (some uid) data newId =
        (Except.ok { id := newId, reminderTime := data.reminderTime, eventId := data.eventId, userId := uid },
          { db := { st.db with reminders := st.db.reminders ++ [{ id := newId, reminderTime := data.reminderTime, eventId := data.eventId, userId := uid }] }
            jobs := scheduleReminder st.jobs newId event.id uid event.title event.date data.reminderTime }) := by
      simp [createReminder, hvalid, hfind, hwin, hnone, scheduleReminder]
    have happ := findReminder_append_new st.db.reminders data.eventId uid hnone
      { id := newId, reminderTime := data.reminderTime, eventId := data.eventId, userId := uid }
      rfl rfl
    refine ⟨by rw [hmain], by rw [hmain], by rw [hmain], by rw [hmain], ?_⟩
    rw [hmain]
    simp [createReminder, hvalid, hfind, hwin, happ]

/-- Witness for C4 at a concrete state: an unauthenticated call fails, a
fully valid call creates the reminder, and repeating the same create on
the resulting state fails with the duplicate-reminder error. -/
theorem C4_create_check_order_witness :
    createReminder st0 none cData "r1" = (Except.error notAuthenticatedMsg, st0) ∧
    (createReminder st0 (some "u1") cData "r1").1 = Except.ok cRem3 ∧
    createReminder (createReminder st0 (some "u1") cData "r1").2 (some "u1") cData "r2" =
      (Except.error duplicateReminderMsg, (createReminder st0 (some "u1") cData "r1").2) := by
  have h := C4_create_check_order st0 "u1" cData "r1" "r2" (by decide)
  have h5 := h.2.2.2.2 cEvent3 (by decide) (by decide) rfl
  exact ⟨h.1, by simpa [cData, cRem3] using h5.1, h5.2.2.2.2⟩

/-- C8: `updateReminder` validates the new time against the event named by
`data.eventId`, not against the event the stored reminder references:
whenever the caller owns an event matching `data.eventId` whose date
passes the window check with `data.reminderTime`, and owns a reminder with
id `reminderId`, the update succeeds and persists `data.reminderTime` on
that reminder — with no requirement that the stored reminder's `eventId`
equal `data.eventId`. -/
theorem C8_update_validates_against_data_eventId (st : AppState)
    (uid reminderId : String) (data : ReminderFormInput)
    (event : Event) (existing : Reminder)
    (hvalid : reminderSchemaOk data = true)
    (hfind : findEventForOwner st.db.events data.eventId uid = some event)
    (hwin : windowRejects event.date data.reminderTime = false)
    (hrem : findReminderForIdOwner st.db.reminders reminderId uid = some existing) :
    updateReminder st (some uid) reminderId data =
      (Except.ok { existing with reminderTime := data.reminderTime },
        { db := { st.db with reminders := dbUpdateReminderTime st.db.reminders reminderId data.reminderTime }
          jobs := schedUpdateReminder st.jobs reminderId data.reminderTime }) ∧
    (∀ r, r ∈ (updateReminder st (some uid) reminderId data).2.db.reminders →
      r.id = reminderId → r.reminderTime = data.reminderTime) := by
  have hmain : updateReminder st (some uid) reminderId data =
      (Except.ok { existing with reminderTime := data.reminderTime },
        { db := { st.db with reminders := dbUpdateReminderTime st.db.reminders reminderId data.reminderTime }
          jobs := schedUpdateReminder st.jobs reminderId data.reminderTime }) := by
    simp [updateReminder, hvalid, hfind, hwin, hrem]
  refine ⟨hmain, ?_⟩
  rw [hmain]
  intro r hr hid
  simp only [dbUpdateReminderTime, List.mem_map] at hr
  obtain ⟨x, hx, hfx⟩ := hr
  by_cases hxid : (x.id == reminderId) = true
  · rw [if_pos hxid] at hfx
    rw [← hfx]
  · rw [if_neg hxid] at hfx
    rw [hfx, hid] at hxid
    simp at hxid

/-- Witness for C8 at a concrete state: the stored reminder references
event `e2` while the input names event `e1`; the update nevertheless
succeeds and sets the reminder's time from the input. -/
theorem C8_update_validates_against_data_eventId_witness :
    cRemOther.eventId ≠ cData.eventId ∧
    (updateReminder stC8 (some "u1") "r9" cData).1 =
      Except.ok { cRemOther with reminderTime := 1000000 } := by
  have h := C8_update_validates_against_data_eventId stC8 "u1" "r9" cData cEvent3
    cRemOther (by decide) (by decide) (by decide) (by decide)
  refine ⟨by decide, ?_⟩
  rw [h.1]
  rfl

/-- C9: `createOrUpdateReminder` leaves the scheduler's job table entirely
unchanged on every path — it registers, updates, and cancels nothing — and
on success it either appends a new reminder row (whose fresh id therefore
has no job) or rewrites the existing row's reminderTime. -/
theorem C9_createOrUpdate_never_touches_jobs (st : AppState) (session : Option String)
    (data : ReminderFormInput) (newId : String) :
    ((createOrUpdateReminder st session data newId).2.jobs = st.jobs) ∧
    (∀ uid event, session = some uid →
      reminderSchemaOk data = true →
      findEventForOwner st.db.events data.eventId uid = some event →
      windowRejects event.date data.reminderTime = false →
      findReminderForEventOwner st.db.reminders data.eventId uid = none →
      createOrUpdateReminder st session data newId =
        (Except.ok { id := newId, reminderTime := data.reminderTime, eventId := data.eventId, userId := uid },
          { st with db := { st.db with reminders := st.db.reminders ++ [{ id := newId, reminderTime := data.reminderTime, eventId := data.eventId, userId := uid }] } })) ∧
    (∀ uid event existing, session = some uid →
      reminderSchemaOk data = true →
      findEventForOwner st.db.events data.eventId uid = some event →
      windowRejects event.date data.reminderTime = false →
      findReminderForEventOwner st.db.reminders data.eventId uid = some existing →
      createOrUpdateReminder st session data newId =
        (Except.ok { existing with reminderTime := data.reminderTime },
          { st with db := { st.db with reminders := dbUpdateReminderTime st.db.reminders existing.id data.reminderTime } })) := by
  refine ⟨?_, ?_, ?_⟩
  · unfold createOrUpdateReminder
    cases session with
    | none => rfl
    | some uid =>
      repeat' split
      all_goals rfl
  · intro uid event hses hvalid hfind hwin hnone
    subst hses
    simp [createOrUpdateReminder, hvalid, hfind, hwin, hnone]
  · intro uid event existing hses hvalid hfind hwin hsome
    subst hses
    simp [createOrUpdateReminder, hvalid, hfind, hwin, hsome]

/-- Witness for C9 at a concrete state: a successful create through the
legacy action persists the reminder while the (empty) job table stays
empty. -/
theorem C9_createOrUpdate_never_touches_jobs_witness :
    (createOrUpdateReminder st0 (some "u1") cData "r1").2.jobs = st0.jobs ∧
    (createOrUpdateReminder st0 (some "u1") cData "r1").1 = Except.ok cRem3 := by
  have h := C9_createOrUpdate_never_touches_jobs st0 (some "u1") cData "r1"
  refine ⟨h.1, ?_⟩
  have h2 := h.2.1 "u1" cEvent3 rfl (by decide) (by decide) (by decide) rfl
  rw [h2]
  rfl

theorem mem_propagate_of_ok (priorDate newDate : Int) (eid : String)
    (l : List Reminder) (r : Reminder) (hr : r ∈ l) (he : r.eventId = eid)
    (hok : propagationWindowOk newDate (newDate - (priorDate - r.reminderTime)) = true) :
    { r with reminderTime := newDate - (priorDate - r.reminderTime) } ∈
      propagateReminders priorDate newDate eid l := by
  rw [propagateReminders, List.mem_filterMap]
  refine ⟨r, hr, ?_⟩
  simp [he, hok]

theorem propagate_removes_of_bad (priorDate newDate : Int) (eid : String)
    (l : List Reminder) (hnodup : (l.map (fun r => r.id)).Nodup)
    (r : Reminder) (hr : r ∈ l) (he : r.eventId = eid)
    (hbad : propagationWindowOk newDate (newDate - (priorDate - r.reminderTime)) = false) :
    ∀ x ∈ propagateReminders priorDate newDate eid l, x.id ≠ r.id := by
  intro x hx
  rw [propagateReminders, List.mem_filterMap] at hx
  obtain ⟨a, ha, hfa⟩ := hx
  have haneq : a ≠ r := by
    intro hcontr
    subst hcontr
    simp [he, hbad] at hfa
  have hxid : x.id = a.id := by
    split at hfa
    · dsimp only at hfa
      split at hfa
      · rw [Option.some.injEq] at hfa
        rw [← hfa]
      · exact absurd hfa (by simp)
    · rw [Option.some.injEq] at hfa
      rw [← hfa]
  rw [hxid]
  intro hcontr
  exact haneq (List.inj_on_of_nodup_map hnodup ha hr hcontr)

/-- C2: when `updateEvent` changes an owned event's date from `E.date` to
`d.date`, every reminder of that event is re-based to
`newReminderTime = d.date - (E.date - reminderTime)`, preserving the lead
time: if `(d.date, newReminderTime)` passes the window check the reminder
survives with the new time, and otherwise it is deleted from the table. -/
theorem C2_propagation_preserves_offset (st : AppState) (uid : String) (now : Int)
    (eventId : String) (d : EventFormInput) (E : Event)
    (hval : eventSchemaError now d = none)
    (hfind : findEventForOwner st.db.events eventId uid = some E)
    (hdup : st.db.events.any (fun e => e.title == d.title && e.date == d.date && e.userId == uid && e.id != eventId) = false)
    (hdate : E.date ≠ d.date)
    (hnodup : (st.db.reminders.map (fun r => r.id)).Nodup) :
    ∀ r ∈ st.db.reminders, r.eventId = eventId →
      (propagationWindowOk d.date (d.date - (E.date - r.reminderTime)) = true →
        { r with reminderTime := d.date - (E.date - r.reminderTime) } ∈
          (updateEvent st (some uid) now eventId d).2.db.reminders) ∧
      (propagationWindowOk d.date (d.date - (E.date - r.reminderTime)) = false →
        ∀ x ∈ (updateEvent st (some uid) now eventId d).2.db.reminders, x.id ≠ r.id) := by
  intro r hr he
  have hlen : 0 < (st.db.reminders.filter (fun x => x.eventId == eventId)).length := by
    have hmem : r ∈ st.db.reminders.filter (fun x => x.eventId == eventId) := by
      rw [List.mem_filter]
      exact ⟨hr, by simp [he]⟩
    exact List.length_pos.mpr (List.ne_nil_of_mem hmem)
  have hrem : (updateEvent st (some uid) now eventId d).2.db.reminders =
      propagateReminders E.date d.date eventId st.db.reminders := by
    simp [updateEvent, hval, hfind, hdup, hdate, hlen]
  constructor
  · intro hok
    rw [hrem]
    exact mem_propagate_of_ok E.date d.date eventId st.db.reminders r hr he hok
  · intro hbad x hx
    rw [hrem] at hx
    exact propagate_removes_of_bad E.date d.date eventId st.db.reminders hnodup
      r hr he hbad x hx

/-- Witness for C2 at a concrete state: the event moves from date 2000000
to 7000000; its reminder at 1000000 (lead time 1000000 ms) is moved to
6000000, preserving the offset. -/
theorem C2_propagation_preserves_offset_witness :
    ({ cRem3 with reminderTime := 6000000 } : Reminder) ∈
      (updateEvent st3 (some "u1") 0 "e1" d3).2.db.reminders := by
  have h := C2_propagation_preserves_offset st3 "u1" 0 "e1" d3 cEvent3
    (by decide) (by decide) (by decide) (by decide) (by decide)
  have h2 := (h cRem3 (by decide) rfl).1 (by decide)
  have heq : ({ cRem3 with reminderTime := d3.date - (cEvent3.date - cRem3.reminderTime) } : Reminder) =
      { cRem3 with reminderTime := 6000000 } := by decide
  rw [heq] at h2
  exact h2

/-- C3 counterexample: at a concrete state, `updateEvent` succeeds and
moves the reminder `r1` from time 1000000 to 6000000, yet the scheduler
still holds the job `r1` with reminderTime 1000000 — the propagation
neither updated nor cancelled the job, so a Job exists for a persisted
Reminder with a different reminderTime, refuting the claimed invariant. -/
theorem C3_job_sync_counterexample :
    (updateEvent st3 (some "u1") 0 "e1" d3).1 =
      Except.ok { cEvent3 with date := 7000000 } ∧
    (updateEvent st3 (some "u1") 0 "e1" d3).2.db.reminders =
      [{ cRem3 with reminderTime := 6000000 }] ∧
    (updateEvent st3 (some "u1") 0 "e1" d3).2.jobs = [cJob3] ∧
    cJob3.id = cRem3.id ∧
    cJob3.reminderTime ≠ (6000000 : Int) := by
  refine ⟨by rfl, by decide, by decide, rfl, by decide⟩

theorem mem_jobsSet (jobs : List ReminderJob) (job : ReminderJob) (j : ReminderJob)
    (hj : j ∈ jobsSet jobs job) : j = job ∨ j.id ≠ job.id := by
  unfold jobsSet at hj
  split at hj
  · rw [List.mem_map] at hj
    obtain ⟨x, hx, hfx⟩ := hj
    split at hfx
    · left
      exact hfx.symm
    · right
      rename_i hxid
      rw [← hfx]
      simpa using hxid
  · rename_i hany
    rw [List.mem_append] at hj
    cases hj with
    | inl hmem =>
      right
      intro hid
      exact hany (List.any_eq_true.mpr ⟨j, hmem, by simp [hid]⟩)
    | inr hsing =>
      left
      simpa using hsing

theorem mem_schedUpdate_time (jobs : List ReminderJob) (rid : String) (t : Int)
    (j : ReminderJob) (hj : j ∈ schedUpdateReminder jobs rid t)
    (hid : j.id = rid) : j.reminderTime = t := by
  rw [schedUpdateReminder, List.mem_map] at hj
  obtain ⟨x, hx, hfx⟩ := hj
  split at hfx
  · rw [← hfx]
  · rename_i hxid
    rw [hfx, hid] at hxid
    simp at hxid

theorem mem_dbUpdate_time (reminders : List Reminder) (rid : String) (t : Int)
    (x : Reminder) (hx : x ∈ dbUpdateReminderTime reminders rid t)
    (hid : x.id = rid) : x.reminderTime = t := by
  rw [dbUpdateReminderTime, List.mem_map] at hx
  obtain ⟨a, ha, hfa⟩ := hx
  split at hfa
  · rw [← hfa]
  · rename_i haid
    rw [hfa, hid] at haid
    simp at haid

theorem mem_cancelReminder_ne (jobs : List ReminderJob) (rid : String)
    (j : ReminderJob) (hj : j ∈ cancelReminder jobs rid) : j.id ≠ rid := by
  intro hid
  have h := any_cancelReminder jobs rid
  rw [List.any_eq_false] at h
  exact h j hj (by simp [hid])

/-- C3 (amended): the reminder-mutating actions keep the touched job in
sync with the persisted reminder — `createReminder` registers the job with
the created reminder's time, `updateReminder` writes the same new time to
both row and job, `deleteReminder` removes the job — but event-change
propagation inside `updateEvent` leaves the scheduler's job table entirely
unchanged, neither updating nor cancelling jobs, so a date change can
leave a job whose reminderTime differs from its reminder's. -/
theorem C3_amended_job_sync (st : AppState) (session : Option String) :
    (∀ now eventId d, (updateEvent st session now eventId d).2.jobs = st.jobs) ∧
    (∀ data newId r st', createReminder st session data newId = (Except.ok r, st') →
      r.reminderTime = data.reminderTime ∧
      ∀ j ∈ st'.jobs, j.id = r.id → j.reminderTime = r.reminderTime) ∧
    (∀ rid data r st', updateReminder st session rid data = (Except.ok r, st') →
      (∀ j ∈ st'.jobs, j.id = rid → j.reminderTime = data.reminderTime) ∧
      (∀ x ∈ st'.db.reminders, x.id = rid → x.reminderTime = data.reminderTime)) ∧
    (∀ rid st', deleteReminder st session rid = (Except.ok (), st') →
      ∀ j ∈ st'.jobs, j.id ≠ rid) := by
  refine ⟨?_, ?_, ?_, ?_⟩
  · intro now eventId d
    unfold updateEvent
    cases session with
    | none => rfl
    | some uid =>
      repeat' split
      all_goals rfl
  · intro data newId r st' h
    unfold createReminder at h
    cases session with
    | none => simp at h
    | some uid =>
      dsimp only at h
      split at h
      · simp at h
      · split at h
        · simp at h
        · split at h
          · simp at h
          · split at h
            · simp at h
            · rw [Prod.mk.injEq, Except.ok.injEq] at h
              obtain ⟨h1, h2⟩ := h
              subst h1
              subst h2
              refine ⟨rfl, ?_⟩
              intro j hj hid
              rcases mem_jobsSet _ _ _ hj with hEq | hNe
              · rw [hEq]
              · exact absurd hid hNe
  · intro rid data r st' h
    unfold updateReminder at h
    cases session with
    | none => simp at h
    | some uid =>
      dsimp only at h
      split at h
      · simp at h
      · split at h
        · simp at h
        · split at h
          · simp at h
          · split at h
            · simp at h
            · rw [Prod.mk.injEq, Except.ok.injEq] at h
              obtain ⟨h1, h2⟩ := h
              subst h2
              refine ⟨?_, ?_⟩
              · intro j hj hid
                exact mem_schedUpdate_time st.jobs rid data.reminderTime j hj hid
              · intro x hx hid
                exact mem_dbUpdate_time st.db.reminders rid data.reminderTime x hx hid
  · intro rid st' h
    unfold deleteReminder at h
    cases session with
    | none => simp at h
    | some uid =>
      dsimp only at h
      split at h
      · simp at h
      · rw [Prod.mk.injEq] at h
        obtain ⟨h1, h2⟩ := h
        subst h2
        intro j hj
        exact mem_cancelReminder_ne st.jobs rid j hj

/-- Witness for C3 (amended): propagation leaves the concrete job table
untouched, while a direct `updateReminder` to time 1050000 leaves the job
holding exactly 1050000. -/
theorem C3_amended_job_sync_witness :
    (updateEvent st3 (some "u1") 0 "e1" d3).2.jobs = st3.jobs ∧
    ({ cJob3 with reminderTime := 1050000, status := JobStatus.pending } : ReminderJob).reminderTime = 1050000 := by
  have h := C3_amended_job_sync st3 (some "u1")
  refine ⟨h.1 0 "e1" d3, ?_⟩
  have h3 := (h.2.2.1 "r1" dataU { cRem3 with reminderTime := 1050000 } stU (by rfl)).1
  exact h3 _ (by decide) rfl
